import Mathlib

/-!
Shallow embedding of the Skill-Swap-Platform backend (Express/Mongoose),
covering the authentication middlewares, the swap routes, the socket
message handler, and the Mongoose models (User, Swap, Session, Message,
Feedback) with their pre-save hooks, together with proofs of the claims
about them.
-/

namespace SkillSwap

/-- Mongo ObjectId of a user, abstracted to a natural number. -/
abbrev UserId := Nat
/-- Mongo ObjectId of a swap, abstracted to a natural number. -/
abbrev SwapId := Nat
/-- A timestamp (`Date`), abstracted to a natural number. -/
abbrev Time := Nat

/-- `userSchema.role` enum: "user", "admin", "moderator". -/
inductive Role where
  | user | admin | moderator
deriving DecidableEq, Repr

/-- `swapSchema.status` enum:
"pending", "accepted", "rejected", "completed", "cancelled". -/
inductive SwapStatus where
  | pending | accepted | rejected | completed | cancelled
deriving DecidableEq, Repr

/-- `swapSchema.priority` enum: "low", "medium", "high". -/
inductive Priority where
  | low | medium | high
deriving DecidableEq, Repr

/-- Skill proficiency enum:
"beginner", "intermediate", "advanced", "expert". -/
inductive Proficiency where
  | beginner | intermediate | advanced | expert
deriving DecidableEq, Repr

/-- An entry of `userSchema.skillsOffered` / `skillsWanted`:
`{ name, proficiency, description }`. -/
structure Skill where
  name : String
  proficiency : Proficiency
  description : Option String
deriving DecidableEq, Repr

/-- `userSchema.preferences`: notification and privacy settings. -/
structure Preferences where
  notifEmail : Bool
  notifPush : Bool
  notifSwapRequests : Bool
  notifMessages : Bool
  privacyProfileVisible : Bool
  privacyShowEmail : Bool
  privacyShowLocation : Bool
deriving DecidableEq, Repr

/-- The schema defaults of `userSchema.preferences`. -/
def defaultPreferences : Preferences :=
  { notifEmail := true, notifPush := true, notifSwapRequests := true,
    notifMessages := true, privacyProfileVisible := true,
    privacyShowEmail := false, privacyShowLocation := true }

/-- A `User` document (`userSchema` of models/User.js).  `id` is the Mongo
`_id`; the user's aggregate `rating` is a number, embedded as a rational. -/
structure User where
  id : UserId
  supabaseId : String
  email : String
  name : String
  avatar : Option String
  bio : String
  skillsOffered : List Skill
  skillsWanted : List Skill
  role : Role
  isActive : Bool
  isBanned : Bool
  banReason : Option String
  rating : ℚ
  totalSessions : Nat
  completedSwaps : Nat
  location : Option String
  timezone : Option String
  preferences : Preferences
deriving DecidableEq, Repr

/-- `userSchema.methods.canPerformAction`:
`return this.isActive && !this.isBanned;`. -/
def User.canPerformAction (u : User) : Bool :=
  u.isActive && !u.isBanned

/-- The keys of the plain object produced by `user.toObject()`. -/
inductive UserField where
  | id | supabaseId | email | name | avatar | bio
  | skillsOffered | skillsWanted | role | isActive | isBanned | banReason
  | rating | totalSessions | completedSwaps | location | timezone | preferences
deriving DecidableEq, Repr

/-- Values stored at the keys of a `user.toObject()` object. -/
inductive UVal where
  | vId (i : UserId)
  | vStr (s : String)
  | vOptStr (o : Option String)
  | vBool (b : Bool)
  | vNat (n : Nat)
  | vRat (q : ℚ)
  | vSkills (l : List Skill)
  | vRole (r : Role)
  | vPrefs (p : Preferences)
deriving DecidableEq, Repr

/-- `this.toObject()` on a user document: the document as a plain
key/value object. -/
def User.toObject (u : User) : List (UserField × UVal) :=
  [ (.id, .vId u.id),
    (.supabaseId, .vStr u.supabaseId),
    (.email, .vStr u.email),
    (.name, .vStr u.name),
    (.avatar, .vOptStr u.avatar),
    (.bio, .vStr u.bio),
    (.skillsOffered, .vSkills u.skillsOffered),
    (.skillsWanted, .vSkills u.skillsWanted),
    (.role, .vRole u.role),
    (.isActive, .vBool u.isActive),
    (.isBanned, .vBool u.isBanned),
    (.banReason, .vOptStr u.banReason),
    (.rating, .vRat u.rating),
    (.totalSessions, .vNat u.totalSessions),
    (.completedSwaps, .vNat u.completedSwaps),
    (.location, .vOptStr u.location),
    (.timezone, .vOptStr u.timezone),
    (.preferences, .vPrefs u.preferences) ]

/-- JavaScript `delete obj[k]` on the embedded object. -/
def deleteKey (k : UserField) (o : List (UserField × UVal)) :
    List (UserField × UVal) :=
  o.filter (fun p => p.1 ≠ k)

/-- `userSchema.methods.getPublicProfile`: `toObject()` followed by
`delete` of `email`, `supabaseId`, `isBanned`, `banReason`,
`preferences`, in that order. -/
def User.getPublicProfile (u : User) : List (UserField × UVal) :=
  deleteKey .preferences (deleteKey .banReason (deleteKey .isBanned
    (deleteKey .supabaseId (deleteKey .email u.toObject))))

/-- A `Swap` document (`swapSchema` of models/Swap.js).  The two nested
`feedback` ratings are `null` by default (`Option Nat`), the `notes`
sub-document is flattened into its two fields. -/
structure Swap where
  id : SwapId
  requesterId : UserId
  offererId : UserId
  skillOffered : Skill
  skillRequested : Skill
  description : String
  status : SwapStatus
  scheduledTime : Option Time
  duration : Nat
  location : Option String
  meetingLink : Option String
  notesRequester : Option String
  notesOfferer : Option String
  tags : List String
  isUrgent : Bool
  priority : Priority
  feedbackRequesterRating : Option Nat
  feedbackOffererRating : Option Nat
  feedbackRequesterComment : Option String
  feedbackOffererComment : Option String
  completedAt : Option Time
  cancelledAt : Option Time
  cancelledBy : Option UserId
  cancelReason : Option String
deriving DecidableEq, Repr

/-- `swapSchema.methods.isParticipant`:
`this.requesterId.equals(userId) || this.offererId.equals(userId)`. -/
def Swap.isParticipant (s : Swap) (userId : UserId) : Bool :=
  s.requesterId == userId || s.offererId == userId

/-- `swapSchema.methods.getOtherParticipant`: the other side of the swap,
`null` when the given user is not a participant. -/
def Swap.getOtherParticipant (s : Swap) (userId : UserId) : Option UserId :=
  if s.requesterId == userId then some s.offererId
  else if s.offererId == userId then some s.requesterId
  else none

/-- `swapSchema.methods.canBeModified`:
`["pending", "accepted"].includes(this.status)`. -/
def Swap.canBeModified (s : Swap) : Bool :=
  s.status == .pending || s.status == .accepted

/-- `swapSchema.pre("save")`: when the `status` path was modified, a swap
becoming `completed` with no `completedAt` gets `completedAt = new Date()`,
and a swap becoming `cancelled` with no `cancelledAt` gets
`cancelledAt = new Date()`. -/
def swapPreSave (statusModified : Bool) (now : Time) (s : Swap) : Swap :=
  if statusModified then
    if s.status == .completed && s.completedAt.isNone then
      { s with completedAt := some now }
    else if s.status == .cancelled && s.cancelledAt.isNone then
      { s with cancelledAt := some now }
    else s
  else s

/-- A `Session` document (`sessionSchema`), restricted to the fields the
swap routes write when creating one. -/
structure Session where
  swapId : SwapId
  requesterId : UserId
  offererId : UserId
  scheduledTime : Time
  duration : Nat
  location : Option String
deriving DecidableEq, Repr

/-- An entry of `messageSchema.readBy`. -/
structure ReadEntry where
  userId : UserId
  readAt : Time
deriving DecidableEq, Repr

/-- A `Message` document (`messageSchema` of models/Message.js), with the
`aiModeration` sub-document flattened. -/
structure MessageDoc where
  swapId : SwapId
  senderId : UserId
  content : String
  messageType : String
  fileUrl : Option String
  fileName : Option String
  fileSize : Option Nat
  isEdited : Bool
  isDeleted : Bool
  readBy : List ReadEntry
  aiIsModerated : Bool
  aiIsSafe : Bool
deriving DecidableEq, Repr

/-- `messageSchema.methods.markAsRead`: push a `readBy` entry and return
`true` when the user has none yet, otherwise return `false` and leave
`readBy` unchanged. -/
def MessageDoc.markAsRead (m : MessageDoc) (userId : UserId) (now : Time) :
    MessageDoc × Bool :=
  match m.readBy.find? (fun r => r.userId == userId) with
  | some _ => (m, false)
  | none =>
      ({ m with readBy := m.readBy ++ [{ userId := userId, readAt := now }] },
       true)

/-- `messageSchema.pre("save")`: when the `content` path was modified and
the message is not deleted, reset `aiModeration.isModerated` to `false`. -/
def messagePreSave (contentModified : Bool) (m : MessageDoc) : MessageDoc :=
  if contentModified && !m.isDeleted then
    { m with aiIsModerated := false }
  else m

/-- Outcome of an HTTP authentication middleware: the request proceeds
with a user id attached to `req.user`, or is rejected with a status. -/
inductive AuthResult where
  | ok (userId : UserId)
  | reject (status : Nat)
deriving DecidableEq, Repr

/-- The headers of an incoming request that the two middlewares read. -/
structure AuthRequest where
  authorization : Option String
  xAuthToken : Option String
deriving DecidableEq, Repr

/-- The external verifiers and the user collection consulted by the two
middlewares: `supabase.auth.getUser`, `jwt.verify`, and
`User.findOne({ supabaseId })`. -/
structure AuthEnv where
  supabaseGetUser : String → Option String
  jwtVerify : String → Option UserId
  findBySupabaseId : String → Option User

/-- `authHeader && authHeader.split(" ")[1]` with JavaScript falsiness:
a missing header, a missing second component, and an empty second
component all yield no token. -/
def bearerToken (header : Option String) : Option String :=
  match header with
  | none => none
  | some h =>
      match (h.splitOn " ")[1]? with
      | none => none
      | some t => if t = "" then none else some t

/-- `req.header("x-auth-token")` with JavaScript falsiness. -/
def headerToken (header : Option String) : Option String :=
  match header with
  | none => none
  | some t => if t = "" then none else some t

/-- The Supabase-based middleware `authenticateToken`
(server/middleware/auth.js): Bearer token from the `authorization`
header, 401 when missing, 403 when Supabase rejects it, 404 when the
Supabase user has no database record, 403 when the account is disabled
or banned. -/
def authenticateToken (env : AuthEnv) (req : AuthRequest) : AuthResult :=
  match bearerToken req.authorization with
  | none => .reject 401
  | some token =>
      match env.supabaseGetUser token with
      | none => .reject 403
      | some sid =>
          match env.findBySupabaseId sid with
          | none => .reject 404
          | some dbUser =>
              if dbUser.canPerformAction then .ok dbUser.id
              else .reject 403

/-- The JWT-based middleware `auth` (middleware/authMiddleware variant):
token from the `x-auth-token` header, 401 when missing, 401 when
`jwt.verify` fails, otherwise the decoded user is attached. -/
def auth (env : AuthEnv) (req : AuthRequest) : AuthResult :=
  match headerToken req.xAuthToken with
  | none => .reject 401
  | some token =>
      match env.jwtVerify token with
      | none => .reject 401
      | some uid => .ok uid

/-- Result of a swap route: the swap as written back (`none` when nothing
was saved), the sessions created by the handler, and the HTTP status. -/
structure SwapRouteResult where
  savedSwap : Option Swap
  createdSessions : List Session
  status : Nat
deriving DecidableEq, Repr

/-- The session created by the accept/update swap routes:
`swapId`, `requesterId`, `offererId`, `duration`, `location` from the
swap, `scheduledTime` from the swap or `new Date()` when null. -/
def sessionFromSwap (s : Swap) (now : Time) : Session :=
  { swapId := s.id, requesterId := s.requesterId, offererId := s.offererId,
    scheduledTime := s.scheduledTime.getD now,
    duration := s.duration, location := s.location }

/-- `PUT /:id/accept` (routes/swaps.js), after `authenticateToken` and
`requireSwapParticipation`: 403 unless the caller is the offerer, 400
unless the swap is pending, otherwise the swap is saved as accepted and
one session is created from it. -/
def acceptSwap (swap : Swap) (callerId : UserId) (now : Time) :
    SwapRouteResult :=
  if !(swap.offererId == callerId) then ⟨none, [], 403⟩
  else if !(swap.status == .pending) then ⟨none, [], 400⟩
  else
    let saved := swapPreSave true now { swap with status := .accepted }
    ⟨some saved, [sessionFromSwap saved now], 200⟩

/-- `PUT /:id/reject`: 403 unless the caller is the offerer, 400 unless
pending, otherwise saved as rejected. -/
def rejectSwap (swap : Swap) (callerId : UserId) (now : Time) :
    SwapRouteResult :=
  if !(swap.offererId == callerId) then ⟨none, [], 403⟩
  else if !(swap.status == .pending) then ⟨none, [], 400⟩
  else ⟨some (swapPreSave true now { swap with status := .rejected }), [], 200⟩

/-- `PUT /:id/complete`: 400 unless the swap is accepted, otherwise saved
as completed (the pre-save hook stamps `completedAt`). -/
def completeSwap (swap : Swap) (now : Time) : SwapRouteResult :=
  if !(swap.status == .accepted) then ⟨none, [], 400⟩
  else ⟨some (swapPreSave true now { swap with status := .completed }), [], 200⟩

/-- `DELETE /:id`: 400 unless the swap can be modified, otherwise saved as
cancelled with `cancelledBy` and `cancelReason`
(`req.body.reason || "Cancelled by user"`). -/
def cancelSwap (swap : Swap) (callerId : UserId) (reason : Option String)
    (now : Time) : SwapRouteResult :=
  if !swap.canBeModified then ⟨none, [], 400⟩
  else
    ⟨some (swapPreSave true now
      { swap with
        status := .cancelled
        cancelledBy := some callerId
        cancelReason := some (reason.getD "Cancelled by user") }), [], 200⟩

/-- Body of `PUT /:id` (update swap); absent fields are left untouched. -/
structure UpdateSwapBody where
  status : Option SwapStatus
  notes : Option String
  scheduledTime : Option Time
  duration : Option Nat
  location : Option String
  meetingLink : Option String
  tags : Option (List String)
deriving Repr

/-- The field assignments of the update-swap handler: status, notes (into
the caller's side), scheduledTime, duration, location, meetingLink, tags. -/
def applySwapUpdate (swap : Swap) (callerId : UserId) (b : UpdateSwapBody) :
    Swap :=
  let s1 := match b.status with
    | none => swap
    | some st => { swap with status := st }
  let s2 := match b.notes with
    | none => s1
    | some n =>
        if swap.requesterId == callerId then { s1 with notesRequester := some n }
        else { s1 with notesOfferer := some n }
  let s3 := match b.scheduledTime with
    | none => s2
    | some t => { s2 with scheduledTime := some t }
  let s4 := match b.duration with
    | none => s3
    | some d => { s3 with duration := d }
  let s5 := match b.location with
    | none => s4
    | some l => { s4 with location := some l }
  let s6 := match b.meetingLink with
    | none => s5
    | some m => { s5 with meetingLink := some m }
  match b.tags with
  | none => s6
  | some tg => { s6 with tags := tg }

/-- `PUT /:id` (update swap), after participation middleware: 400 when the
swap cannot be modified, otherwise the updated swap is saved and — when
the body set status to accepted and the saved swap is accepted — one
session is created. -/
def updateSwap (swap : Swap) (callerId : UserId) (b : UpdateSwapBody)
    (now : Time) : SwapRouteResult :=
  if !swap.canBeModified then ⟨none, [], 400⟩
  else
    let updated := applySwapUpdate swap callerId b
    let statusModified := match b.status with
      | none => false
      | some st => !(st == swap.status)
    let saved := swapPreSave statusModified now updated
    let sessions :=
      if b.status == some .accepted && saved.status == .accepted then
        [sessionFromSwap saved now]
      else []
    ⟨some saved, sessions, 200⟩

/-- Body of `POST /` (create swap); destructuring defaults
`duration = 60`, `tags = []`, `isUrgent = false`, `priority = "medium"`
are applied by the handler. -/
structure CreateSwapBody where
  offererId : UserId
  skillOffered : Skill
  skillRequested : Skill
  description : String
  duration : Option Nat
  scheduledTime : Option Time
  location : Option String
  tags : Option (List String)
  isUrgent : Option Bool
  priority : Option Priority
deriving Repr

/-- Result of the create-swap route. -/
inductive CreateSwapResult where
  | created (status : Nat) (swap : Swap)
  | failed (status : Nat)
deriving DecidableEq, Repr

/-- The duplicate check of the create route, `Swap.findOne({ $or, status })`:
an existing swap between the two users, in either direction, whose status
is pending or accepted. -/
def hasActiveSwapBetween (swaps : List Swap) (a b : UserId) : Bool :=
  swaps.any (fun s =>
    ((s.requesterId == a && s.offererId == b) ||
     (s.requesterId == b && s.offererId == a)) &&
    (s.status == .pending || s.status == .accepted))

/-- `POST /` (create swap), after `authenticateToken` and validation:
404 when the offerer does not exist or cannot perform actions, 400 when
the requester targets themself, 400 when an active swap already exists
between the two users, otherwise a pending swap is created (schema
defaults fill the remaining fields). -/
def createSwap (users : List User) (swaps : List Swap) (requester : User)
    (body : CreateSwapBody) (newId : SwapId) : CreateSwapResult :=
  match users.find? (fun u => u.id == body.offererId) with
  | none => .failed 404
  | some offerer =>
      if !offerer.canPerformAction then .failed 404
      else if requester.id == body.offererId then .failed 400
      else if hasActiveSwapBetween swaps requester.id body.offererId then
        .failed 400
      else
        .created 201
          { id := newId, requesterId := requester.id,
            offererId := body.offererId,
            skillOffered := body.skillOffered,
            skillRequested := body.skillRequested,
            description := body.description, status := .pending,
            scheduledTime := body.scheduledTime,
            duration := body.duration.getD 60, location := body.location,
            meetingLink := none, notesRequester := none, notesOfferer := none,
            tags := body.tags.getD [], isUrgent := body.isUrgent.getD false,
            priority := body.priority.getD Priority.medium,
            feedbackRequesterRating := none, feedbackOffererRating := none,
            feedbackRequesterComment := none, feedbackOffererComment := none,
            completedAt := none, cancelledAt := none, cancelledBy := none,
            cancelReason := none }

/-- Body of `POST /register`; the handler defaults the two skill lists to
`[]` when omitted. -/
structure RegisterBody where
  email : String
  password : String
  name : String
  skillsOffered : Option (List Skill)
  skillsWanted : Option (List Skill)
deriving Repr

/-- The Supabase auth calls made by the register route:
`auth.signUp` yields a Supabase user `(id, email)` or an error, and
`auth.signInWithPassword` yields a session or an error. -/
structure SupabaseAuthEnv where
  signUp : String → String → Except String (String × String)
  signIn : String → String → Except String Unit

/-- Result of the register route. -/
inductive RegisterResult where
  | success (status : Nat) (profile : List (UserField × UVal))
  | failed (status : Nat)
deriving DecidableEq, Repr

/-- `POST /register` (routes/auth.js): 400 when a user with the email
already exists, 400 when Supabase sign-up fails; otherwise the new user
is saved with the supplied skill lists (defaulting to `[]`) and schema
defaults, and — when the follow-up sign-in succeeds — a 201 response
carries the new user's public profile. -/
def register (users : List User) (env : SupabaseAuthEnv)
    (body : RegisterBody) (newId : UserId) : List User × RegisterResult :=
  if users.any (fun u => u.email == body.email) then (users, .failed 400)
  else
    match env.signUp body.email body.password with
    | .error _ => (users, .failed 400)
    | .ok (sid, semail) =>
        let newUser : User :=
          { id := newId, supabaseId := sid, email := semail,
            name := body.name, avatar := none, bio := "",
            skillsOffered := body.skillsOffered.getD [],
            skillsWanted := body.skillsWanted.getD [],
            role := .user, isActive := true, isBanned := false,
            banReason := none, rating := 0, totalSessions := 0,
            completedSwaps := 0, location := none, timezone := none,
            preferences := defaultPreferences }
        let users1 := users ++ [newUser]
        match env.signIn body.email body.password with
        | .error _ => (users1, .failed 400)
        | .ok _ => (users1, .success 201 newUser.getPublicProfile)

/-- `data` of a Socket.IO "message" event; the handler defaults
`messageType` to "text" and the file fields to null. -/
structure MessageData where
  swapId : SwapId
  content : String
  messageType : Option String
  fileUrl : Option String
  fileName : Option String
  fileSize : Option Nat
deriving Repr

/-- Socket.IO emissions of the message handler: an "error" back to the
sender, a "newMessage" to a room, a "newMessageNotification" to a room. -/
inductive SocketEvent where
  | errorToSender (message : String)
  | newMessage (room : String) (msg : MessageDoc)
  | newMessageNotification (room : String) (swapId : SwapId) (content : String)
deriving DecidableEq, Repr

/-- The room name `swap:{swapId}`. -/
def swapRoom (id : SwapId) : String := "swap:" ++ toString id

/-- The personal room name `user:{userId}`. -/
def userRoom (id : UserId) : String := "user:" ++ toString id

/-- `socket.on("message")` (socket/socketHandler.js): when the swap is
missing or the sender is not a participant, emit "error" to the sender
and persist nothing; otherwise save one message (through the message
pre-save hook), emit "newMessage" to the swap's room, and — when
`getOtherParticipant` yields a user — emit "newMessageNotification" to
that user's personal room.  Returns the messages persisted and the
events emitted. -/
def handleSocketMessage (swaps : List Swap) (senderId : UserId)
    (data : MessageData) : List MessageDoc × List SocketEvent :=
  match swaps.find? (fun s => s.id == data.swapId) with
  | none => ([], [.errorToSender "Access denied to send message"])
  | some swap =>
      if !(swap.isParticipant senderId) then
        ([], [.errorToSender "Access denied to send message"])
      else
        let msg := messagePreSave true
          { swapId := data.swapId, senderId := senderId,
            content := data.content,
            messageType := data.messageType.getD "text",
            fileUrl := data.fileUrl, fileName := data.fileName,
            fileSize := data.fileSize, isEdited := false, isDeleted := false,
            readBy := [], aiIsModerated := false, aiIsSafe := true }
        match swap.getOtherParticipant senderId with
        | none => ([msg], [.newMessage (swapRoom data.swapId) msg])
        | some other =>
            ([msg],
             [.newMessage (swapRoom data.swapId) msg,
              .newMessageNotification (userRoom other) data.swapId msg.content])

/-- The `rating` bound shared by `validateFeedbackCreation`
(`isInt({ min: 1, max: 5 })`) and `feedbackSchema.rating`
(`min: 1, max: 5`): every stored Feedback rating satisfies it. -/
def feedbackRatingValid (r : Nat) : Prop :=
  1 ≤ r ∧ r ≤ 5

/-- `updateUserRating` (routes/feedback, also the admin flagged-feedback
deletion): the user's aggregate rating becomes the average of the ratings
of the user's feedback documents (`Feedback.getAverageRating`, a `$avg`),
or 0 when there are none (`stats[0]?.averageRating || 0`). -/
def updateUserRating (ratings : List Nat) : ℚ :=
  if ratings = [] then 0 else (ratings.sum : ℚ) / ratings.length

/-- `User.findByIdAndUpdate(userId, { rating })`. -/
def setUserRating (u : User) (q : ℚ) : User := { u with rating := q }

/-- `User.findByIdAndUpdate(userId, { $inc: { completedSwaps: 1 } })`
performed by the complete-swap route. -/
def incCompletedSwaps (u : User) : User :=
  { u with completedSwaps := u.completedSwaps + 1 }

/-- Body of `PUT /me` (profile update); absent fields are untouched. -/
structure UpdateProfileBody where
  name : Option String
  bio : Option String
  avatar : Option String
  skillsOffered : Option (List Skill)
  skillsWanted : Option (List Skill)
  location : Option String
  timezone : Option String
  preferences : Option Preferences
deriving Repr

/-- `PUT /me` (routes/auth.js): assigns the supplied fields onto the
authenticated user and saves; the rating is never assigned. -/
def updateProfile (u : User) (b : UpdateProfileBody) : User :=
  let u1 := match b.name with | none => u | some v => { u with name := v }
  let u2 := match b.bio with | none => u1 | some v => { u1 with bio := v }
  let u3 := match b.avatar with | none => u2 | some v => { u2 with avatar := some v }
  let u4 := match b.skillsOffered with | none => u3 | some v => { u3 with skillsOffered := v }
  let u5 := match b.skillsWanted with | none => u4 | some v => { u4 with skillsWanted := v }
  let u6 := match b.location with | none => u5 | some v => { u5 with location := some v }
  let u7 := match b.timezone with | none => u6 | some v => { u6 with timezone := some v }
  match b.preferences with | none => u7 | some v => { u7 with preferences := v }

/-- The schema bound on `swapSchema.feedback.requesterRating` /
`offererRating`: null, or between `min: 1` and `max: 5`. -/
def swapRatingOk (o : Option Nat) : Prop :=
  ∀ r, o = some r → 1 ≤ r ∧ r ≤ 5

/-- Both feedback ratings of a swap satisfy the schema bound. -/
def Swap.feedbackRatingsOk (s : Swap) : Prop :=
  swapRatingOk s.feedbackRequesterRating ∧ swapRatingOk s.feedbackOffererRating

/-- The schema bound on `userSchema.rating`: `min: 0, max: 5`. -/
def userRatingOk (q : ℚ) : Prop :=
  0 ≤ q ∧ q ≤ 5

/-- Number of `readBy` entries of a message that belong to a user. -/
def readByCount (m : MessageDoc) (userId : UserId) : Nat :=
  (m.readBy.filter (fun r => r.userId == userId)).length

/-- A sample skill, for concrete instantiations. -/
def sampleSkill : Skill :=
  { name := "guitar", proficiency := .intermediate, description := none }

/-- A second sample skill. -/
def sampleSkill2 : Skill :=
  { name := "cooking", proficiency := .beginner, description := none }

/-- A sample pending swap between requester 1 and offerer 2. -/
def sampleSwap : Swap :=
  { id := 10, requesterId := 1, offererId := 2, skillOffered := sampleSkill,
    skillRequested := sampleSkill2,
    description := "weekly guitar for cooking lessons",
    status := .pending, scheduledTime := none, duration := 60,
    location := none, meetingLink := none, notesRequester := none,
    notesOfferer := none, tags := [], isUrgent := false, priority := .medium,
    feedbackRequesterRating := none, feedbackOffererRating := none,
    feedbackRequesterComment := none, feedbackOffererComment := none,
    completedAt := none, cancelledAt := none, cancelledBy := none,
    cancelReason := none }

/-- A sample active user with a given id. -/
def sampleUser (i : UserId) : User :=
  { id := i, supabaseId := "sb" ++ toString i,
    email := "u" ++ toString i ++ "@example.com", name := "User",
    avatar := none, bio := "", skillsOffered := [sampleSkill],
    skillsWanted := [sampleSkill2], role := .user, isActive := true,
    isBanned := false, banReason := none, rating := 0, totalSessions := 0,
    completedSwaps := 0, location := none, timezone := none,
    preferences := defaultPreferences }

/-- A sample create-swap body targeting offerer 2. -/
def sampleCreateBody : CreateSwapBody :=
  { offererId := 2, skillOffered := sampleSkill,
    skillRequested := sampleSkill2,
    description := "weekly guitar for cooking lessons",
    duration := none, scheduledTime := none, location := none,
    tags := none, isUrgent := none, priority := none }

/-- A sample register body with explicit skill lists. -/
def sampleRegisterBody : RegisterBody :=
  { email := "new@example.com", password := "secret1", name := "Newbie",
    skillsOffered := some [sampleSkill], skillsWanted := some [sampleSkill2] }

/-- A Supabase environment in which sign-up and sign-in both succeed. -/
def sampleSupabaseEnv : SupabaseAuthEnv :=
  { signUp := fun email _ => .ok ("sb-new", email),
    signIn := fun _ _ => .ok () }

/-- An auth environment in which every verifier rejects. -/
def emptyAuthEnv : AuthEnv :=
  { supabaseGetUser := fun _ => none, jwtVerify := fun _ => none,
    findBySupabaseId := fun _ => none }

/-- An auth environment in which JWT verification accepts the token "tok"
as user 7 while Supabase knows nothing. -/
def jwtOnlyAuthEnv : AuthEnv :=
  { supabaseGetUser := fun _ => none,
    jwtVerify := fun t => if t = "tok" then some 7 else none,
    findBySupabaseId := fun _ => none }

/-- A sample socket "message" payload for swap 10. -/
def sampleMessageData : MessageData :=
  { swapId := 10, content := "hello", messageType := none, fileUrl := none,
    fileName := none, fileSize := none }

/-- A sample undeleted message on swap 10 with an empty `readBy` list. -/
def sampleMessage : MessageDoc :=
  { swapId := 10, senderId := 1, content := "hello", messageType := "text",
    fileUrl := none, fileName := none, fileSize := none, isEdited := false,
    isDeleted := false, readBy := [], aiIsModerated := true, aiIsSafe := true }

/-- C1: the Supabase-based `authenticateToken` and the JWT-based `auth`
middlewares are not equivalent: for a request carrying a valid
`x-auth-token` but no `Authorization` header, `auth` authenticates the
request while `authenticateToken` rejects it with status 401. -/
theorem c1_auth_middlewares_inconsistent :
    ∃ (env : AuthEnv) (req : AuthRequest) (u : UserId) (s : Nat),
      auth env req = .ok u ∧ authenticateToken env req = .reject s :=
  ⟨jwtOnlyAuthEnv, ⟨none, some "tok"⟩, 7, 401, rfl, rfl⟩

/-- C7: the Message pre-save hook resets `aiModeration.isModerated` to
`false` whenever the `content` path was modified and the message is not
deleted, so freshly changed content is never stored as moderated. -/
theorem c7_moderation_reset_on_content_change (m : MessageDoc)
    (hdel : m.isDeleted = false) :
    (messagePreSave true m).aiIsModerated = false := by
  simp [messagePreSave, hdel]

/-- Witness for C7 at a concrete message stored as already moderated. -/
theorem c7_moderation_reset_on_content_change_witness :
    (messagePreSave true sampleMessage).aiIsModerated = false :=
  c7_moderation_reset_on_content_change sampleMessage rfl

/-- C10: on a save in which `status` was modified, a completed swap ends
with a non-null `completedAt` and a cancelled swap with a non-null
`cancelledAt`, and the hook never overwrites an already-set timestamp. -/
theorem c10_status_timestamps (s : Swap) (now : Time) :
    (s.status = .completed → (swapPreSave true now s).completedAt ≠ none) ∧
    (s.status = .cancelled → (swapPreSave true now s).cancelledAt ≠ none) ∧
    (∀ m t, s.completedAt = some t →
      (swapPreSave m now s).completedAt = some t) ∧
    (∀ m t, s.cancelledAt = some t →
      (swapPreSave m now s).cancelledAt = some t) := by
  refine ⟨?_, ?_, ?_, ?_⟩
  · intro h
    cases hc : s.completedAt <;> simp [swapPreSave, h, hc]
  · intro h
    cases hc : s.cancelledAt <;> simp [swapPreSave, h, hc]
  · intro m t h
    unfold swapPreSave
    split
    · split
      · rename_i hcond
        rw [h] at hcond
        simp at hcond
      · split
        · simp [h]
        · exact h
    · exact h
  · intro m t h
    unfold swapPreSave
    split
    · split
      · simp [h]
      · split
        · rename_i hcond hcond2
          rw [h] at hcond2
          simp at hcond2
        · exact h
    · exact h

/-- Witness for C10: completing a pending-feedback sample swap stamps
`completedAt`. -/
theorem c10_status_timestamps_witness :
    ({ sampleSwap with status := .completed } : Swap).status =
      SwapStatus.completed ∧
    (swapPreSave true 5
      { sampleSwap with status := .completed }).completedAt ≠ none :=
  ⟨rfl, (c10_status_timestamps { sampleSwap with status := .completed } 5).1 rfl⟩

/-- C8: `markAsRead` appends exactly one entry and returns `true` when the
user has none, returns `false` and changes nothing when one exists, and a
second call with the same user leaves exactly one entry for that user. -/
theorem c8_markAsRead_idempotent (m : MessageDoc) (uid : UserId)
    (t1 t2 : Time) :
    (m.readBy.find? (fun r => r.userId == uid) = none →
      (m.markAsRead uid t1).2 = true ∧
      (m.markAsRead uid t1).1.readBy = m.readBy ++ [⟨uid, t1⟩] ∧
      readByCount (m.markAsRead uid t1).1 uid = 1) ∧
    (m.readBy.find? (fun r => r.userId == uid) ≠ none →
      m.markAsRead uid t1 = (m, false)) ∧
    ((m.markAsRead uid t1).1.markAsRead uid t2 =
      ((m.markAsRead uid t1).1, false)) ∧
    (m.readBy.find? (fun r => r.userId == uid) = none →
      readByCount ((m.markAsRead uid t1).1.markAsRead uid t2).1 uid = 1) := by
  have hcount : ∀ h : m.readBy.find? (fun r => r.userId == uid) = none,
      readByCount (m.markAsRead uid t1).1 uid = 1 := by
    intro h
    have hall := List.find?_eq_none.mp h
    have hfil : m.readBy.filter (fun r => r.userId == uid) = [] :=
      List.filter_eq_nil_iff.mpr hall
    simp [MessageDoc.markAsRead, h, readByCount, List.filter_append, hfil]
  have hsecond : (m.markAsRead uid t1).1.markAsRead uid t2 =
      ((m.markAsRead uid t1).1, false) := by
    cases hf : m.readBy.find? (fun r => r.userId == uid) with
    | some e =>
        simp [MessageDoc.markAsRead, hf]
    | none =>
        have happ : ((m.readBy ++ [(⟨uid, t1⟩ : ReadEntry)]).find?
            (fun r => r.userId == uid)) = some ⟨uid, t1⟩ := by
          rw [List.find?_append, hf]
          simp [List.find?]
        simp [MessageDoc.markAsRead, hf, happ]
  refine ⟨?_, ?_, hsecond, ?_⟩
  · intro h
    exact ⟨by simp [MessageDoc.markAsRead, h],
           by simp [MessageDoc.markAsRead, h], hcount h⟩
  · intro h
    obtain ⟨e, he⟩ := Option.ne_none_iff_exists'.mp h
    simp [MessageDoc.markAsRead, he]
  · intro h
    rw [hsecond]
    exact hcount h

/-- Witness for C8: on a message with an empty `readBy`, the first call
returns `true` and after two calls by user 1 exactly one entry for user 1
exists. -/
theorem c8_markAsRead_idempotent_witness :
    (sampleMessage.markAsRead 1 3).2 = true ∧
    readByCount ((sampleMessage.markAsRead 1 3).1.markAsRead 1 4).1 1 = 1 :=
  ⟨((c8_markAsRead_idempotent sampleMessage 1 3 4).1 rfl).1,
   (c8_markAsRead_idempotent sampleMessage 1 3 4).2.2.2 rfl⟩

/-- C2: on a pending swap, accept by the offerer saves the swap as
accepted and creates exactly one session copying swapId, requesterId,
offererId and duration from the swap, with scheduledTime from the swap or
the current time; a participant who is not the offerer gets 403 and a
non-pending swap gets 400, in both cases saving nothing and creating no
session. -/
theorem c2_accept_swap (swap : Swap) (callerId : UserId) (now : Time)
    (_hpart : swap.isParticipant callerId = true) :
    (callerId ≠ swap.offererId →
      acceptSwap swap callerId now = ⟨none, [], 403⟩) ∧
    (callerId = swap.offererId → swap.status ≠ .pending →
      acceptSwap swap callerId now = ⟨none, [], 400⟩) ∧
    (callerId = swap.offererId → swap.status = .pending →
      acceptSwap swap callerId now =
        ⟨some { swap with status := .accepted },
         [{ swapId := swap.id, requesterId := swap.requesterId,
            offererId := swap.offererId,
            scheduledTime := swap.scheduledTime.getD now,
            duration := swap.duration, location := swap.location }], 200⟩) := by
  refine ⟨?_, ?_, ?_⟩
  · intro h
    have hb : (swap.offererId == callerId) = false :=
      beq_eq_false_iff_ne.mpr (Ne.symm h)
    simp [acceptSwap, hb]
  · intro h hs
    have hb : (swap.offererId == callerId) = true := by simp [beq_iff_eq, h]
    have hsb : (swap.status == SwapStatus.pending) = false := by
      simpa [beq_iff_eq] using hs
    simp [acceptSwap, hb, hsb]
  · intro h hs
    have hb : (swap.offererId == callerId) = true := by simp [beq_iff_eq, h]
    simp [acceptSwap, hb, hs, swapPreSave, sessionFromSwap]

/-- Witness for C2: offerer 2 accepts the sample pending swap at time 5. -/
theorem c2_accept_swap_witness :
    acceptSwap sampleSwap 2 5 =
      ⟨some { sampleSwap with status := .accepted },
       [{ swapId := 10, requesterId := 1, offererId := 2,
          scheduledTime := 5, duration := 60, location := none }], 200⟩ :=
  (c2_accept_swap sampleSwap 2 5 (by decide)).2.2 rfl rfl

/-- C3 counterexample: requester 1 is authenticated and active and a
pending swap already exists between users 1 and 2, yet — user 2 being
absent from the user collection — the create route fails with 404, not
with 400 as the claim states for the duplicate-swap case. -/
theorem c3_counterexample :
    [sampleUser 1].find? (fun u => u.id == (sampleUser 1).id) =
      some (sampleUser 1) ∧
    (sampleUser 1).canPerformAction = true ∧
    hasActiveSwapBetween [sampleSwap] 1 2 = true ∧
    createSwap [sampleUser 1] [sampleSwap] (sampleUser 1)
      sampleCreateBody 99 = .failed 404 ∧
    createSwap [sampleUser 1] [sampleSwap] (sampleUser 1)
      sampleCreateBody 99 ≠ .failed 400 := by decide

/-- C3 amended: for an authenticated creation request, the route fails
with 404 when offererId does not denote an existing user able to perform
actions (even when an active swap exists between the two users); it fails
with 400 when the requester targets themself; when the offerer exists and
is active it fails with 400 on an existing pending/accepted swap between
the two users in either direction, and otherwise creates a swap with
status pending. -/
theorem c3_create_swap (users : List User) (swaps : List Swap)
    (requester : User) (body : CreateSwapBody) (newId : SwapId)
    (hfind : users.find? (fun u => u.id == requester.id) = some requester)
    (hact : requester.canPerformAction = true) :
    (users.find? (fun u => u.id == body.offererId) = none →
      createSwap users swaps requester body newId = .failed 404) ∧
    (∀ off, users.find? (fun u => u.id == body.offererId) = some off →
      off.canPerformAction = false →
      createSwap users swaps requester body newId = .failed 404) ∧
    (requester.id = body.offererId →
      createSwap users swaps requester body newId = .failed 400) ∧
    (∀ off, users.find? (fun u => u.id == body.offererId) = some off →
      off.canPerformAction = true → requester.id ≠ body.offererId →
      hasActiveSwapBetween swaps requester.id body.offererId = true →
      createSwap users swaps requester body newId = .failed 400) ∧
    (∀ off, users.find? (fun u => u.id == body.offererId) = some off →
      off.canPerformAction = true → requester.id ≠ body.offererId →
      hasActiveSwapBetween swaps requester.id body.offererId = false →
      ∃ s, createSwap users swaps requester body newId = .created 201 s ∧
        s.status = .pending ∧ s.requesterId = requester.id ∧
        s.offererId = body.offererId) := by
  refine ⟨?_, ?_, ?_, ?_, ?_⟩
  · intro h
    simp [createSwap, h]
  · intro off hoff hinact
    simp [createSwap, hoff, hinact]
  · intro h
    have hfind2 : users.find? (fun u => u.id == body.offererId) =
        some requester := by
      rw [← h]
      exact hfind
    have hb : (requester.id == body.offererId) = true := beq_iff_eq.mpr h
    simp [createSwap, hfind2, hact, hb]
  · intro off hoff hact2 hne hdup
    have hb : (requester.id == body.offererId) = false :=
      beq_eq_false_iff_ne.mpr hne
    simp [createSwap, hoff, hact2, hb, hdup]
  · intro off hoff hact2 hne hdup
    have hb : (requester.id == body.offererId) = false :=
      beq_eq_false_iff_ne.mpr hne
    simp [createSwap, hoff, hact2, hb, hdup]

/-- Witness for C3 (amended): with both users present and active and no
existing swap, the sample request creates a pending swap. -/
theorem c3_create_swap_witness :
    ∃ s, createSwap [sampleUser 1, sampleUser 2] [] (sampleUser 1)
        sampleCreateBody 99 = .created 201 s ∧ s.status = .pending ∧
      s.requesterId = 1 ∧ s.offererId = 2 :=
  (c3_create_swap [sampleUser 1, sampleUser 2] [] (sampleUser 1)
    sampleCreateBody 99 (by decide) (by decide)).2.2.2.2 (sampleUser 2)
    (by decide) (by decide) (by decide) (by decide)

/-- C4: registration with an already-used email fails with 400 and
creates no user; a successful registration appends one user storing the
supplied skill lists (defaulting to empty) and responds 201 with that
user's public profile. -/
theorem c4_register (users : List User) (env : SupabaseAuthEnv)
    (body : RegisterBody) (newId : UserId) :
    (users.any (fun u => u.email == body.email) = true →
      register users env body newId = (users, .failed 400)) ∧
    (∀ sid semail,
      users.any (fun u => u.email == body.email) = false →
      env.signUp body.email body.password = .ok (sid, semail) →
      env.signIn body.email body.password = .ok () →
      ∃ newUser : User,
        register users env body newId =
          (users ++ [newUser], .success 201 newUser.getPublicProfile) ∧
        newUser.skillsOffered = body.skillsOffered.getD [] ∧
        newUser.skillsWanted = body.skillsWanted.getD [] ∧
        newUser.email = semail ∧ newUser.supabaseId = sid ∧
        newUser.name = body.name) := by
  refine ⟨?_, ?_⟩
  · intro h
    simp [register, h]
  · intro sid semail hany hsignup hsignin
    exact ⟨{ id := newId, supabaseId := sid, email := semail,
             name := body.name, avatar := none, bio := "",
             skillsOffered := body.skillsOffered.getD [],
             skillsWanted := body.skillsWanted.getD [],
             role := .user, isActive := true, isBanned := false,
             banReason := none, rating := 0, totalSessions := 0,
             completedSwaps := 0, location := none, timezone := none,
             preferences := defaultPreferences },
           by simp [register, hany, hsignup, hsignin],
           rfl, rfl, rfl, rfl, rfl⟩

/-- Witness for C4: registering on an empty user collection with the
sample body stores both supplied skill lists and returns the public
profile. -/
theorem c4_register_witness :
    ∃ newUser : User,
      register [] sampleSupabaseEnv sampleRegisterBody 42 =
        ([] ++ [newUser], .success 201 newUser.getPublicProfile) ∧
      newUser.skillsOffered = sampleRegisterBody.skillsOffered.getD [] ∧
      newUser.skillsWanted = sampleRegisterBody.skillsWanted.getD [] ∧
      newUser.email = "new@example.com" ∧ newUser.supabaseId = "sb-new" ∧
      newUser.name = sampleRegisterBody.name :=
  (c4_register [] sampleSupabaseEnv sampleRegisterBody 42).2 "sb-new"
    "new@example.com" rfl rfl rfl

/-- C5: a "message" event for a missing swap or from a non-participant
only emits an error event to the sender and persists no message; from a
participant it persists exactly one message carrying the sender's id,
emits "newMessage" to the swap's room and "newMessageNotification" to the
other participant's personal room. -/
theorem c5_socket_message (swaps : List Swap) (senderId : UserId)
    (data : MessageData) :
    (swaps.find? (fun s => s.id == data.swapId) = none →
      handleSocketMessage swaps senderId data =
        ([], [.errorToSender "Access denied to send message"])) ∧
    (∀ swap, swaps.find? (fun s => s.id == data.swapId) = some swap →
      swap.isParticipant senderId = false →
      handleSocketMessage swaps senderId data =
        ([], [.errorToSender "Access denied to send message"])) ∧
    (∀ swap, swaps.find? (fun s => s.id == data.swapId) = some swap →
      swap.isParticipant senderId = true →
      ∃ msg other,
        swap.getOtherParticipant senderId = some other ∧
        handleSocketMessage swaps senderId data =
          ([msg],
           [.newMessage (swapRoom data.swapId) msg,
            .newMessageNotification (userRoom other) data.swapId
              msg.content]) ∧
        msg.senderId = senderId ∧ msg.swapId = data.swapId ∧
        msg.content = data.content) := by
  refine ⟨?_, ?_, ?_⟩
  · intro h
    simp [handleSocketMessage, h]
  · intro swap hf hp
    simp [handleSocketMessage, hf, hp]
  · intro swap hf hp
    have hother : ∃ other, swap.getOtherParticipant senderId = some other := by
      by_cases h1 : (swap.requesterId == senderId) = true
      · exact ⟨swap.offererId, by simp [Swap.getOtherParticipant, h1]⟩
      · have h2 : (swap.offererId == senderId) = true := by
          unfold Swap.isParticipant at hp
          rcases Bool.or_eq_true_iff.mp hp with h | h
          · exact absurd h h1
          · exact h
        exact ⟨swap.requesterId, by
          simp only [Bool.not_eq_true] at h1
          simp [Swap.getOtherParticipant, h1, h2]⟩
    obtain ⟨other, ho⟩ := hother
    refine ⟨{ swapId := data.swapId, senderId := senderId,
              content := data.content,
              messageType := data.messageType.getD "text",
              fileUrl := data.fileUrl, fileName := data.fileName,
              fileSize := data.fileSize, isEdited := false,
              isDeleted := false, readBy := [], aiIsModerated := false,
              aiIsSafe := true }, other, ho, ?_, rfl, rfl, rfl⟩
    simp [handleSocketMessage, hf, hp, ho, messagePreSave]

/-- Witness for C5: user 1 sends "hello" on the sample swap; one message
is saved and the two events target swap room 10 and user room 2. -/
theorem c5_socket_message_witness :
    ∃ msg other,
      sampleSwap.getOtherParticipant 1 = some other ∧
      handleSocketMessage [sampleSwap] 1 sampleMessageData =
        ([msg],
         [.newMessage (swapRoom sampleMessageData.swapId) msg,
          .newMessageNotification (userRoom other) sampleMessageData.swapId
            msg.content]) ∧
      msg.senderId = 1 ∧ msg.swapId = sampleMessageData.swapId ∧
      msg.content = sampleMessageData.content :=
  (c5_socket_message [sampleSwap] 1 sampleMessageData).2.2 sampleSwap
    (by decide) (by decide)

/-- C9: the object returned by `getPublicProfile` contains none of the
keys email, supabaseId, isBanned, banReason, preferences, and every other
stored field of the user is returned unchanged. -/
theorem c9_public_profile (u : User) (k : UserField) :
    (k ∈ [UserField.email, UserField.supabaseId, UserField.isBanned,
          UserField.banReason, UserField.preferences] →
      (u.getPublicProfile).lookup k = none) ∧
    (k ∉ [UserField.email, UserField.supabaseId, UserField.isBanned,
          UserField.banReason, UserField.preferences] →
      (u.getPublicProfile).lookup k = (u.toObject).lookup k) := by
  cases k <;>
    refine ⟨fun h => ?_, fun h => ?_⟩ <;>
    first
      | rfl
      | exact absurd h (by decide)

/-- Witness for C9 at a concrete user: email is gone from the public
profile while name is returned unchanged. -/
theorem c9_public_profile_witness :
    ((sampleUser 1).getPublicProfile).lookup UserField.email = none ∧
    ((sampleUser 1).getPublicProfile).lookup UserField.name =
      ((sampleUser 1).toObject).lookup UserField.name :=
  ⟨(c9_public_profile (sampleUser 1) UserField.email).1 (by decide),
   (c9_public_profile (sampleUser 1) UserField.name).2 (by decide)⟩

/-- The swap pre-save hook never changes the feedback rating fields. -/
theorem swapPreSave_feedback (m : Bool) (now : Time) (s : Swap) :
    (swapPreSave m now s).feedbackRequesterRating =
      s.feedbackRequesterRating ∧
    (swapPreSave m now s).feedbackOffererRating =
      s.feedbackOffererRating := by
  unfold swapPreSave
  split
  · split
    · exact ⟨rfl, rfl⟩
    · split
      · exact ⟨rfl, rfl⟩
      · exact ⟨rfl, rfl⟩
  · exact ⟨rfl, rfl⟩

/-- The update-swap field assignments never change the feedback ratings. -/
theorem applySwapUpdate_feedback (s : Swap) (c : UserId)
    (b : UpdateSwapBody) :
    (applySwapUpdate s c b).feedbackRequesterRating =
      s.feedbackRequesterRating ∧
    (applySwapUpdate s c b).feedbackOffererRating =
      s.feedbackOffererRating := by
  rcases b with ⟨st, no, sc, du, lo, me, tg⟩
  unfold applySwapUpdate
  cases st <;> cases no <;> cases sc <;> cases du <;> cases lo <;>
    cases me <;> cases tg <;>
    first
      | exact ⟨rfl, rfl⟩
      | (dsimp only
         split <;> exact ⟨rfl, rfl⟩)

/-- The profile-update route never assigns the rating field. -/
theorem updateProfile_rating (u : User) (b : UpdateProfileBody) :
    (updateProfile u b).rating = u.rating := by
  rcases b with ⟨na, bi, av, so, sw, lo, tz, pr⟩
  unfold updateProfile
  cases na <;> cases bi <;> cases av <;> cases so <;> cases sw <;>
    cases lo <;> cases tz <;> cases pr <;> rfl

/-- The recomputed aggregate rating — the average of feedback ratings
each between 1 and 5, or 0 for an empty list — lies between 0 and 5. -/
theorem updateUserRating_bounds (ratings : List Nat)
    (h : ∀ r ∈ ratings, feedbackRatingValid r) :
    userRatingOk (updateUserRating ratings) := by
  unfold updateUserRating userRatingOk
  split
  · constructor <;> norm_num
  · rename_i hne
    have hlen : 0 < ratings.length := List.length_pos.mpr hne
    have hlenQ : (0 : ℚ) < ratings.length := by exact_mod_cast hlen
    constructor
    · positivity
    · rw [div_le_iff₀ hlenQ]
      have hsum : ratings.sum ≤ ratings.length * 5 := by
        have hle := List.sum_le_card_nsmul ratings 5 (fun x hx => (h x hx).2)
        simpa [smul_eq_mul] using hle
      calc ((ratings.sum : ℕ) : ℚ) ≤ ((ratings.length * 5 : ℕ) : ℚ) := by
            exact_mod_cast hsum
        _ = 5 * (ratings.length : ℚ) := by
            push_cast
            ring

/-- C6: every swap-saving operation keeps both feedback ratings null or
in [1,5] (created swaps have them null and no handler assigns them), and
every user-saving operation keeps the aggregate rating in [0,5]
(registration stores 0, profile updates and swap-count increments leave
it, and the recomputation averages feedback ratings validated into
[1,5]). -/
theorem c6_rating_bounds :
    (∀ users swaps requester body newId code s,
      createSwap users swaps requester body newId = .created code s →
      s.feedbackRatingsOk) ∧
    (∀ swap callerId now s,
      (acceptSwap swap callerId now).savedSwap = some s →
      swap.feedbackRatingsOk → s.feedbackRatingsOk) ∧
    (∀ swap callerId now s,
      (rejectSwap swap callerId now).savedSwap = some s →
      swap.feedbackRatingsOk → s.feedbackRatingsOk) ∧
    (∀ swap now s, (completeSwap swap now).savedSwap = some s →
      swap.feedbackRatingsOk → s.feedbackRatingsOk) ∧
    (∀ swap callerId reason now s,
      (cancelSwap swap callerId reason now).savedSwap = some s →
      swap.feedbackRatingsOk → s.feedbackRatingsOk) ∧
    (∀ swap callerId b now s,
      (updateSwap swap callerId b now).savedSwap = some s →
      swap.feedbackRatingsOk → s.feedbackRatingsOk) ∧
    (∀ users env body newId u,
      u ∈ (register users env body newId).1 →
      (∀ v ∈ users, userRatingOk v.rating) → userRatingOk u.rating) ∧
    (∀ ratings : List Nat, (∀ r ∈ ratings, feedbackRatingValid r) →
      userRatingOk (updateUserRating ratings)) ∧
    (∀ u q, userRatingOk q → userRatingOk (setUserRating u q).rating) ∧
    (∀ u, userRatingOk u.rating →
      userRatingOk (incCompletedSwaps u).rating) ∧
    (∀ u b, userRatingOk u.rating →
      userRatingOk (updateProfile u b).rating) := by
  have hpres : ∀ (m : Bool) (now : Time) (t : Swap),
      t.feedbackRatingsOk → (swapPreSave m now t).feedbackRatingsOk := by
    intro m now t ht
    obtain ⟨h1, h2⟩ := swapPreSave_feedback m now t
    unfold Swap.feedbackRatingsOk at ht ⊢
    rw [h1, h2]
    exact ht
  refine ⟨?_, ?_, ?_, ?_, ?_, ?_, ?_, updateUserRating_bounds, ?_, ?_, ?_⟩
  · intro users swaps requester body newId code s h
    unfold createSwap at h
    split at h
    · cases h
    · split at h
      · cases h
      · split at h
        · cases h
        · split at h
          · cases h
          · cases h
            simp [Swap.feedbackRatingsOk, swapRatingOk]
  · intro swap callerId now s h hok
    unfold acceptSwap at h
    split at h
    · cases h
    · split at h
      · cases h
      · simp only [Option.some.injEq] at h
        subst h
        exact hpres true now _ (by
          unfold Swap.feedbackRatingsOk at hok ⊢
          simpa using hok)
  · intro swap callerId now s h hok
    unfold rejectSwap at h
    split at h
    · cases h
    · split at h
      · cases h
      · simp only [Option.some.injEq] at h
        subst h
        exact hpres true now _ (by
          unfold Swap.feedbackRatingsOk at hok ⊢
          simpa using hok)
  · intro swap now s h hok
    unfold completeSwap at h
    split at h
    · cases h
    · simp only [Option.some.injEq] at h
      subst h
      exact hpres true now _ (by
        unfold Swap.feedbackRatingsOk at hok ⊢
        simpa using hok)
  · intro swap callerId reason now s h hok
    unfold cancelSwap at h
    split at h
    · cases h
    · simp only [Option.some.injEq] at h
      subst h
      exact hpres true now _ (by
        unfold Swap.feedbackRatingsOk at hok ⊢
        simpa using hok)
  · intro swap callerId b now s h hok
    unfold updateSwap at h
    split at h
    · cases h
    · simp only [Option.some.injEq] at h
      subst h
      refine hpres _ now _ ?_
      obtain ⟨h1, h2⟩ := applySwapUpdate_feedback swap callerId b
      unfold Swap.feedbackRatingsOk at hok ⊢
      rw [h1, h2]
      exact hok
  · intro users env body newId u hu hall
    unfold register at hu
    split at hu
    · exact hall u hu
    · split at hu
      · exact hall u hu
      · split at hu
        · rcases List.mem_append.mp hu with hl | hr
          · exact hall u hl
          · rw [List.mem_singleton.mp hr]
            exact ⟨le_refl 0, by norm_num⟩
        · rcases List.mem_append.mp hu with hl | hr
          · exact hall u hl
          · rw [List.mem_singleton.mp hr]
            exact ⟨le_refl 0, by norm_num⟩
  · intro u q hq
    exact hq
  · intro u h
    simpa [incCompletedSwaps] using h
  · intro u b h
    rw [updateProfile_rating]
    exact h

/-- Witness for C6: the recomputed rating for feedback ratings [4, 5] is
within bounds, and accepting the sample swap keeps its feedback ratings
within the schema bound. -/
theorem c6_rating_bounds_witness :
    userRatingOk (updateUserRating [4, 5]) ∧
    Swap.feedbackRatingsOk { sampleSwap with status := SwapStatus.accepted } :=
  ⟨c6_rating_bounds.2.2.2.2.2.2.2.1 [4, 5]
     (by norm_num [feedbackRatingValid]),
   c6_rating_bounds.2.1 sampleSwap 2 5
     { sampleSwap with status := SwapStatus.accepted } (by decide)
     (by
       constructor <;> intro r hr <;> simp [sampleSwap] at hr)⟩

end SkillSwap
